import Mathlib

/-!
Verification of the embedding-inference gateway's core engine against its
specification: the error taxonomy (`internal/domain/errors/errors.go`), the
retrying HTTP transport (`internal/infrastructure/wrapper/client.go`), the
input validator (`internal/domain/entities/validation.go`) and the domain
operations (`internal/services`).  Go code is shallowly embedded: pure Go
functions become Lean functions, the retry loop becomes a recursion on the
remaining retry budget, machine integers (`int`, `time.Duration`) are `Int`
with an explicit wrap to 64-bit where overflow can occur, and Go `error`
values become explicit inductive datatypes.
-/

namespace TEI

/-- The error kinds of `errors.ErrorType` (errors.go lines 12-21). -/
inductive ErrorType where
  | validation
  | tokenizer
  | backend
  | overloaded
  | unhealthy
  | network
  | timeout
  | unknown
deriving DecidableEq, Repr

/-- `errors.TEIError` (errors.go lines 24-29): a classified error with a
message, a kind, an optional numeric HTTP status code (0 when unset, the Go
zero value) and an optional correlation id (empty when unset). -/
structure TEIError where
  message : String
  type : ErrorType
  code : Int
  requestID : String
deriving DecidableEq, Repr

/-- `(*TEIError).IsRetryable` (errors.go lines 40-50): overloaded, network
and timeout are retryable unconditionally; backend is retryable exactly when
the numeric code is at least 500; every other kind is not retryable. -/
def TEIError.isRetryable (e : TEIError) : Bool :=
  match e.type with
  | .overloaded | .network | .timeout => true
  | .backend => decide (500 ≤ e.code)
  | _ => false

/-- `errors.NewTEIError` (errors.go lines 92-97): a classified error with no
status code and no correlation id. -/
def NewTEIError (message : String) (errorType : ErrorType) : TEIError :=
  { message := message, type := errorType, code := 0, requestID := "" }

/-- `errors.NewTEIErrorFromHTTP` (errors.go lines 100-127): classify an HTTP
status code by the source's switch (first match wins): 413 validation,
422 tokenizer, 424 backend, 429 overloaded, 503 unhealthy, other ≥ 500
backend, other ≥ 400 validation, everything else unknown.  The constants are
Go's `http.StatusRequestEntityTooLarge` = 413, `StatusUnprocessableEntity` =
422, `StatusFailedDependency` = 424, `StatusTooManyRequests` = 429 and
`StatusServiceUnavailable` = 503. -/
def NewTEIErrorFromHTTP (statusCode : Int) (message : String) : TEIError :=
  let errorType : ErrorType :=
    if statusCode = 413 then .validation
    else if statusCode = 422 then .tokenizer
    else if statusCode = 424 then .backend
    else if statusCode = 429 then .overloaded
    else if statusCode = 503 then .unhealthy
    else if 500 ≤ statusCode then .backend
    else if 400 ≤ statusCode then .validation
    else .unknown
  { message := message, type := errorType, code := statusCode, requestID := "" }

/-- The classification table exactly as the specification states it
(spec §4.2), written independently of the source to be compared with it:
413→validation, 422→tokenizer, 424→backend, 429→overloaded, 503→unhealthy,
≥500 (else)→backend, ≥400 (else)→validation, else→unknown, first match
wins. -/
def specStatusKind (code : Int) : ErrorType :=
  if code = 413 then .validation
  else if code = 422 then .tokenizer
  else if code = 424 then .backend
  else if code = 429 then .overloaded
  else if code = 503 then .unhealthy
  else if 500 ≤ code then .backend
  else if 400 ≤ code then .validation
  else .unknown

end TEI

namespace TEI

/-- C5: for every HTTP status code and message, `NewTEIErrorFromHTTP` yields
the kind given by the spec's first-match table, and the classified error
carries the given message and the numeric status code. -/
theorem classifyHTTPStatus_matches_spec_table (code : Int) (message : String) :
    (NewTEIErrorFromHTTP code message).type = specStatusKind code ∧
    (NewTEIErrorFromHTTP code message).message = message ∧
    (NewTEIErrorFromHTTP code message).code = code := by
  refine ⟨?_, rfl, rfl⟩
  rfl

/-- C6: the retryability predicate holds exactly for the kinds overloaded,
network and timeout (unconditionally) and for backend with code ≥ 500; it is
false for every other kind, in particular validation and tokenizer. -/
theorem isRetryable_iff (e : TEIError) :
    e.isRetryable = true ↔
      (e.type = .overloaded ∨ e.type = .network ∨ e.type = .timeout ∨
        (e.type = .backend ∧ 500 ≤ e.code)) := by
  rcases e with ⟨m, t, c, r⟩
  cases t <;> simp [TEIError.isRetryable]

/-- Interpret an unbounded integer as Go's `int64` / `time.Duration`: reduce
modulo 2^64 into the signed range [-2^63, 2^63). -/
def toInt64 (x : Int) : Int :=
  (x + 2 ^ 63) % 2 ^ 64 - 2 ^ 63

/-- Go's `1 << uint(k)` at type `time.Duration` (an `int64`): shifting the
constant 1 left by `k` places; for `k ≥ 64` every bit is shifted out and the
result is 0, for `k = 63` the result is the minimum `int64`. -/
def goShlOne64 (k : Nat) : Int :=
  if k < 64 then toInt64 (2 ^ k) else 0

/-- `(*Client).calculateRetryDelay` (client.go lines 287-297):
`exponentialDelay := time.Duration(1<<uint(attempt-1)) * baseDelay`, then cap
at `maxDelay := 30 * time.Second` = 30·10^9 nanoseconds.  Both the shift and
the product are `int64` arithmetic and wrap on overflow; `retryDelay` is the
configured base delay in nanoseconds.  Call sites pass `attempt ≥ 1`. -/
def calculateRetryDelay (retryDelay : Int) (attempt : Nat) : Int :=
  let exponentialDelay := toInt64 (goShlOne64 (attempt - 1) * retryDelay)
  let maxDelay : Int := 30 * 1000000000
  if maxDelay < exponentialDelay then maxDelay else exponentialDelay

theorem toInt64_eq_self (x : Int) (h0 : -(2 ^ 63) ≤ x) (h1 : x < 2 ^ 63) :
    toInt64 x = x := by
  unfold toInt64
  have hlo : (0 : Int) ≤ x + 2 ^ 63 := by omega
  have hhi : x + 2 ^ 63 < 2 ^ 64 := by omega
  rw [Int.emod_eq_of_lt hlo hhi]
  omega

end TEI

namespace TEI

/-- C1 counterexample: at the default base delay of 1 second (10^9 ns) and
retry attempt 35, the `int64` product `2^34 * 10^9` overflows and wraps to a
negative duration, which the cap does not touch, so the computed delay is
negative (an immediate retry) rather than the claimed
`min(base * 2^(35-1), 30 s) = 30 s`. -/
theorem calculateRetryDelay_overflow_counterexample :
    calculateRetryDelay 1000000000 35 = -1266874889709551616 ∧
      calculateRetryDelay 1000000000 35 ≠
        min (1000000000 * 2 ^ (35 - 1)) (30 * 1000000000 : Int) := by
  constructor
  · decide
  · decide

/-- C1 (amended): for every retry attempt `n ≥ 1`, provided the base delay is
non-negative and the mathematical product `base * 2^(n-1)` fits in an `int64`
(no overflow — at the default 1 s base this holds for all `n ≤ 34`), the
backoff delay before attempt `n` equals `min(base * 2^(n-1), 30 s)`; in
particular the delay before attempt 1 is the base delay and the delay never
exceeds 30 seconds. -/
theorem calculateRetryDelay_eq_min (base : Int) (n : Nat)
    (hn : 1 ≤ n) (hbase : 0 ≤ base) (hfit : base * 2 ^ (n - 1) < 2 ^ 63) :
    calculateRetryDelay base n = min (base * 2 ^ (n - 1)) (30 * 1000000000) := by
  rcases eq_or_lt_of_le hbase with hb0 | hbpos
  · subst hb0
    simp [calculateRetryDelay, toInt64, goShlOne64]
  · have hpow_pos : (0 : Int) < 2 ^ (n - 1) := by positivity
    have hb1 : (1 : Int) ≤ base := hbpos
    have hpowfit : (2 : Int) ^ (n - 1) < 2 ^ 63 := by
      calc (2 : Int) ^ (n - 1) = 1 * 2 ^ (n - 1) := (one_mul _).symm
        _ ≤ base * 2 ^ (n - 1) := by
            exact mul_le_mul_of_nonneg_right hb1 (le_of_lt hpow_pos)
        _ < 2 ^ 63 := hfit
    have hk : n - 1 < 63 := by
      by_contra hk
      push_neg at hk
      have : (2 : Int) ^ 63 ≤ 2 ^ (n - 1) :=
        pow_le_pow_right₀ (by norm_num) hk
      omega
    have hshl : goShlOne64 (n - 1) = 2 ^ (n - 1) := by
      unfold goShlOne64
      rw [if_pos (by omega)]
      exact toInt64_eq_self _ (le_trans (by norm_num) hpow_pos.le) hpowfit
    have hprod_nonneg : (0 : Int) ≤ 2 ^ (n - 1) * base := by positivity
    have hprod_lt : (2 : Int) ^ (n - 1) * base < 2 ^ 63 := by
      rw [mul_comm]; exact hfit
    unfold calculateRetryDelay
    rw [hshl, toInt64_eq_self _ (le_trans (by norm_num) hprod_nonneg) hprod_lt]
    rw [mul_comm ((2 : Int) ^ (n - 1)) base]
    rcases le_or_lt (base * 2 ^ (n - 1)) (30 * 1000000000) with hle | hgt
    · rw [if_neg (by omega), min_eq_left hle]
    · rw [if_pos hgt, min_eq_right (le_of_lt hgt)]

/-- Witness for C1 (amended): at the default base delay 10^9 ns and attempt 3
the delay is `min(10^9 * 2^2, 30·10^9) = 4·10^9`. -/
theorem calculateRetryDelay_eq_min_witness :
    calculateRetryDelay 1000000000 3 =
      min ((1000000000 : Int) * 2 ^ (3 - 1)) (30 * 1000000000) :=
  calculateRetryDelay_eq_min 1000000000 3 (by decide) (by decide) (by decide)

/-- A Go `io.Reader` over an in-memory byte slice (`bytes.Reader`): the
underlying bytes plus the current read position. -/
structure ByteReader where
  data : List Nat
  pos : Nat
deriving DecidableEq, Repr

/-- The body re-buffering step at the top of each attempt of
`executeWithRetry` (client.go lines 163-169): `body, _ := io.ReadAll(req.Body)`
reads whatever remains of the current body reader, and
`req.Body = io.NopCloser(bytes.NewReader(body))` installs a fresh reader over
exactly those remaining bytes. -/
def rebufferBody (r : ByteReader) : ByteReader :=
  { data := r.data.drop r.pos, pos := 0 }

/-- Sending the request (`c.httpClient.Do(req)`) when the request is fully
written to the backend — in particular whenever a response (such as a
retryable 5xx/429 status) comes back: the transport reads `req.Body` to EOF to
write it, so the bytes sent are the reader's remaining bytes and the reader is
left fully consumed. -/
def doSend (r : ByteReader) : List Nat × ByteReader :=
  (r.data.drop r.pos, { data := r.data, pos := r.data.length })

/-- One attempt of the retry loop as it acts on the request body: re-buffer
(client.go lines 163-169), then send; yields the bytes actually sent on this
attempt and the body reader state the next attempt will see. -/
def attemptSend (r : ByteReader) : List Nat × ByteReader :=
  doSend (rebufferBody r)

/-- The bodies sent on the first `n` attempts of `executeWithRetry` for a POST
whose JSON-encoded body is `jsonBody` (client.go `Post`, lines 84-106, creates
the request over `bytes.NewReader(jsonBody)`), when every attempt's request is
fully written and answered with a retryable error status. -/
def sentBodiesFrom : ByteReader → Nat → List (List Nat)
  | _, 0 => []
  | r, n + 1 =>
    let s := attemptSend r
    s.1 :: sentBodiesFrom s.2 n

/-- The bodies sent on the first `n` attempts, starting from the fresh reader
`Post` installs over the marshalled JSON body. -/
def sentBodies (jsonBody : List Nat) (n : Nat) : List (List Nat) :=
  sentBodiesFrom { data := jsonBody, pos := 0 } n

/-- C2 failing input: a POST with body bytes `[1, 2, 3]` whose first attempt
is answered with a retryable error.  Attempt 0 sends the full body, but the
retry re-reads the by-then fully consumed reader, so attempt 1 sends the empty
byte sequence — not the original body, contradicting the claim that every
retry resends the first attempt's bytes. -/
theorem retry_resends_empty_body :
    sentBodies [1, 2, 3] 2 = [[1, 2, 3], []] ∧ ([] : List Nat) ≠ [1, 2, 3] := by
  constructor
  · rfl
  · decide

/-- The two values `ctx.Err()` can take: `context.Canceled` and
`context.DeadlineExceeded`. -/
inductive CtxError where
  | canceled
  | deadlineExceeded
deriving DecidableEq, Repr

/-- The ways `c.httpClient.Do(req)` can fail, discriminated exactly as
`wrapNetworkError` (client.go lines 259-285) inspects them: a `net.Error`
whose `Timeout()` is true; the sentinel errors `context.Canceled` and
`context.DeadlineExceeded`; errors whose text mentions "connection refused",
"no such host" or "network is unreachable"; and any other transport error. -/
inductive DoFailure where
  | netTimeout (msg : String)
  | ctxCanceled
  | ctxDeadline
  | connRefused (msg : String)
  | noSuchHost (msg : String)
  | netUnreachable (msg : String)
  | otherTransport (msg : String)
deriving DecidableEq, Repr

/-- `(*Client).wrapNetworkError` (client.go lines 259-285): timeouts and
context cancellation/deadline become timeout-kind classified errors; the
listed connection failures and every remaining transport error become
network-kind classified errors. -/
def wrapNetworkError : DoFailure → TEIError
  | .netTimeout m => NewTEIError m .timeout
  | .ctxCanceled => NewTEIError "request canceled" .timeout
  | .ctxDeadline => NewTEIError "request timeout" .timeout
  | .connRefused m => NewTEIError m .network
  | .noSuchHost m => NewTEIError m .network
  | .netUnreachable m => NewTEIError m .network
  | .otherTransport m => NewTEIError m .network

/-- The outcome of one attempt's interaction with the backend:
`Do` failed; `Do` succeeded but reading the response body failed
(client.go lines 186-192); or a response arrived with a status code, a body,
and — for non-2xx statuses — the message `handleErrorResponse`
(client.go lines 226-257) derives from the error body's JSON, which this
model takes as given in `errMsg`. -/
inductive AttemptResult where
  | doError (f : DoFailure)
  | readBodyError (msg : String)
  | response (status : Int) (errMsg : String) (body : List Nat)
deriving DecidableEq, Repr

/-- `errors.ValidationError` (errors.go lines 53-57) restricted to the field
and message (the free-form `Value any` payload carries no behaviour and is
omitted). -/
structure ValidationError where
  field : String
  message : String
deriving DecidableEq, Repr

/-- A structural validation failure as the validator returns it: a single
`*ValidationError` or an aggregated `*MultiValidationError`. -/
inductive ValFailure where
  | single (e : ValidationError)
  | multi (errs : List ValidationError)
deriving DecidableEq, Repr

/-- A Go `error` value as produced along `executeWithRetry` and the domain
operations: a classified `*TEIError`; a raw context error returned by
`ctx.Err()`; the plain wrap "failed to read response body: %w"; the final
exhaustion wrap "request failed after %d retries: %w" (client.go line 223);
an operation-context wrap such as "embed request failed: %w" added by the
services; or a structural validation failure returned by the validator. -/
inductive GoError where
  | tei (e : TEIError)
  | ctxErr (c : CtxError)
  | readFailed (msg : String)
  | exhaustedWrap (retries : Nat) (inner : GoError)
  | opWrap (opMsg : String) (inner : GoError)
  | valFailure (vf : ValFailure)
deriving DecidableEq, Repr

/-- Result of `executeWithRetry`, together with the number of attempts that
were actually performed (an observation the Go code logs but does not
return). -/
inductive ExecResult where
  | ok (body : List Nat) (attemptsMade : Nat)
  | fail (e : GoError) (attemptsMade : Nat)
deriving DecidableEq, Repr

/-- The loop body of `(*Client).executeWithRetry` (client.go lines 146-224),
recursing on the remaining retry budget, entered with the backoff wait for
`attempt` already behind it (the loop performs no wait before attempt 0).
The attempt's outcome is classified (`wrapNetworkError` for transport errors,
2xx test then `handleErrorResponse` for responses); a retryable classified
error or a response-body read error continues the loop while budget remains —
first waiting out the next backoff delay in a `select` that an external
cancellation wins when `cancelWait (attempt+1)` is `some c`, in which case
the function returns `ctx.Err()` unchanged — a non-retryable classified
error returns immediately, and an exhausted budget returns the last error
wrapped with the retry count. -/
def execLoop (cancelWait : Nat → Option CtxError) (outcome : Nat → AttemptResult) :
    Nat → Nat → ExecResult
  | attempt, retriesLeft =>
    match outcome attempt with
    | .doError f =>
      let e := wrapNetworkError f
      if e.isRetryable then
        match retriesLeft with
        | r + 1 =>
          Option.elim (cancelWait (attempt + 1))
            (execLoop cancelWait outcome (attempt + 1) r)
            (fun c => ExecResult.fail (.ctxErr c) (attempt + 1))
        | 0 => .fail (.exhaustedWrap attempt (.tei e)) (attempt + 1)
      else .fail (.tei e) (attempt + 1)
    | .readBodyError m =>
      match retriesLeft with
      | r + 1 =>
        Option.elim (cancelWait (attempt + 1))
          (execLoop cancelWait outcome (attempt + 1) r)
          (fun c => ExecResult.fail (.ctxErr c) (attempt + 1))
      | 0 => .fail (.exhaustedWrap attempt (.readFailed m)) (attempt + 1)
    | .response status errMsg body =>
      if 200 ≤ status ∧ status < 300 then .ok body (attempt + 1)
      else
        let e := NewTEIErrorFromHTTP status errMsg
        if e.isRetryable then
          match retriesLeft with
          | r + 1 =>
            Option.elim (cancelWait (attempt + 1))
              (execLoop cancelWait outcome (attempt + 1) r)
              (fun c => ExecResult.fail (.ctxErr c) (attempt + 1))
          | 0 => .fail (.exhaustedWrap attempt (.tei e)) (attempt + 1)
        else .fail (.tei e) (attempt + 1)

/-- `(*Client).executeWithRetry` (client.go lines 146-224): run the loop from
attempt 0 with `maxRetries` retries remaining. -/
def executeWithRetry (cancelWait : Nat → Option CtxError)
    (outcome : Nat → AttemptResult) (maxRetries : Nat) : ExecResult :=
  execLoop cancelWait outcome 0 maxRetries

/-- A cancellation schedule under which the caller's signal never fires. -/
def noCancel : Nat → Option CtxError := fun _ => none

/-- The classified error an attempt outcome produces, if any: transport
errors through `wrapNetworkError`, non-2xx responses through
`NewTEIErrorFromHTTP`; 2xx responses and response-body read failures produce
none. -/
def attemptClassified : AttemptResult → Option TEIError
  | .doError f => some (wrapNetworkError f)
  | .readBodyError _ => none
  | .response status errMsg _ =>
    if 200 ≤ status ∧ status < 300 then none
    else some (NewTEIErrorFromHTTP status errMsg)

theorem execLoop_all_retryable (outcome : Nat → AttemptResult)
    (errs : Nat → TEIError)
    (h : ∀ n, attemptClassified (outcome n) = some (errs n))
    (hr : ∀ n, (errs n).isRetryable = true) :
    ∀ (r a : Nat), execLoop noCancel outcome a r =
      ExecResult.fail (.exhaustedWrap (a + r) (.tei (errs (a + r)))) (a + r + 1) := by
  intro r
  induction r with
  | zero =>
    intro a
    rw [execLoop]
    rcases houtcome : outcome a with f | m | ⟨s, em, b⟩
    · have hw : wrapNetworkError f = errs a := by
        have hh := h a; rw [houtcome] at hh
        simpa [attemptClassified] using hh
      simp [hw, hr a]
    · have hh := h a; rw [houtcome] at hh
      simp [attemptClassified] at hh
    · have hh := h a
      rw [houtcome] at hh
      by_cases h2 : 200 ≤ s ∧ s < 300
      · simp [attemptClassified, h2] at hh
      · have hw : NewTEIErrorFromHTTP s em = errs a := by
          simpa [attemptClassified, h2] using hh
        simp [h2, hw, hr a]
  | succ r ih =>
    intro a
    rw [execLoop]
    have hidx : a + 1 + r = a + (r + 1) := by omega
    have hnext := ih (a + 1)
    rw [hidx] at hnext
    rcases houtcome : outcome a with f | m | ⟨s, em, b⟩
    · have hw : wrapNetworkError f = errs a := by
        have hh := h a; rw [houtcome] at hh
        simpa [attemptClassified] using hh
      simp [hw, hr a, noCancel, hnext]
    · simp [noCancel, hnext]
    · have hh := h a
      rw [houtcome] at hh
      by_cases h2 : 200 ≤ s ∧ s < 300
      · simp [attemptClassified, h2] at hh
      · have hw : NewTEIErrorFromHTTP s em = errs a := by
          simpa [attemptClassified, h2] using hh
        simp [h2, hw, hr a, noCancel, hnext]

/-- C3: `executeWithRetry` with retry budget `R` performs attempt 0
unconditionally; a transport whose every attempt produces a non-retryable
classified error causes exactly 1 attempt and the error is returned as is
(no retries, no rewrapping); a transport whose every attempt produces a
retryable classified error causes exactly `R + 1` attempts, after which the
last attempt's classified error is returned wrapped with the retry-count
context. -/
theorem executeWithRetry_attempt_counts (outcome : Nat → AttemptResult)
    (errs : Nat → TEIError) (R : Nat)
    (h : ∀ n, attemptClassified (outcome n) = some (errs n)) :
    ((errs 0).isRetryable = false →
      executeWithRetry noCancel outcome R = .fail (.tei (errs 0)) 1) ∧
    ((∀ n, (errs n).isRetryable = true) →
      executeWithRetry noCancel outcome R =
        .fail (.exhaustedWrap R (.tei (errs R))) (R + 1)) := by
  constructor
  · intro hnr
    unfold executeWithRetry
    rw [execLoop]
    rcases houtcome : outcome 0 with f | m | ⟨s, em, b⟩
    · have hw : wrapNetworkError f = errs 0 := by
        have hh := h 0; rw [houtcome] at hh
        simpa [attemptClassified] using hh
      simp [hw, hnr]
    · have hh := h 0; rw [houtcome] at hh
      simp [attemptClassified] at hh
    · have hh := h 0
      rw [houtcome] at hh
      by_cases h2 : 200 ≤ s ∧ s < 300
      · simp [attemptClassified, h2] at hh
      · have hw : NewTEIErrorFromHTTP s em = errs 0 := by
          simpa [attemptClassified, h2] using hh
        simp [h2, hw, hnr]
  · intro hr
    unfold executeWithRetry
    simpa using execLoop_all_retryable outcome errs h hr R 0

/-- Witness for C3: a transport always answering 400 (validation,
non-retryable) yields exactly one attempt with the unwrapped classified
error, and a transport always failing with connection-refused (network,
retryable) with budget 3 yields 4 attempts and the exhaustion wrap. -/
theorem executeWithRetry_attempt_counts_witness :
    executeWithRetry noCancel (fun _ => .response 400 "bad request" []) 3 =
      .fail (.tei ⟨"bad request", .validation, 400, ""⟩) 1 ∧
    executeWithRetry noCancel (fun _ => .doError (.connRefused "connection refused")) 3 =
      .fail (.exhaustedWrap 3 (.tei ⟨"connection refused", .network, 0, ""⟩)) 4 := by
  constructor
  · exact ((executeWithRetry_attempt_counts (fun _ => .response 400 "bad request" [])
      (fun _ => ⟨"bad request", .validation, 400, ""⟩) 3
      (fun _ => (by decide : attemptClassified (.response 400 "bad request" []) =
        some ⟨"bad request", .validation, 400, ""⟩))).1 (by decide))
  · exact ((executeWithRetry_attempt_counts
      (fun _ => .doError (.connRefused "connection refused"))
      (fun _ => ⟨"connection refused", .network, 0, ""⟩) 3
      (fun _ => (by decide : attemptClassified
        (.doError (.connRefused "connection refused")) =
        some ⟨"connection refused", .network, 0, ""⟩))).2
      (fun _ => (by decide : TEIError.isRetryable
        ⟨"connection refused", .network, 0, ""⟩ = true)))

end TEI

namespace TEI

/-- Whether a Go error value is a classified error (`*errors.TEIError`) of
the timeout kind. -/
def isTimeoutClassified : GoError → Bool
  | .tei e => e.type == .timeout
  | _ => false

/-- A cancellation schedule that fires during the backoff wait before
attempt 1. -/
def cancelBeforeAttempt1 : Nat → Option CtxError :=
  fun n => if n = 1 then some .canceled else none

/-- A transport whose every attempt fails with connection refused — a
retryable network-kind classified error. -/
def alwaysConnRefused : Nat → AttemptResult :=
  fun _ => .doError (.connRefused "connection refused")

/-- C4 counterexample: with a transport failing retryably on attempt 0 and
the caller's cancellation firing during the backoff wait before attempt 1,
`executeWithRetry` returns the raw `ctx.Err()` value — `context.Canceled`,
not a classified error, and in particular not a timeout-kind classified
error. -/
theorem cancel_during_backoff_counterexample :
    executeWithRetry cancelBeforeAttempt1 alwaysConnRefused 3 =
      ExecResult.fail (.ctxErr .canceled) 1 ∧
    isTimeoutClassified (GoError.ctxErr CtxError.canceled) = false := by
  constructor
  · rfl
  · decide

/-- C4 (amended): if the cancellation signal fires while the loop waits out
the backoff delay before a retry, the operation aborts immediately — after
the attempts already made — and the error returned to the caller is the
context's own raw error (`context.Canceled` or `context.DeadlineExceeded`),
returned by `ctx.Err()` without classification; it is not converted to a
timeout-kind classified error (that conversion, `wrapNetworkError`, applies
only to errors returned by the HTTP request itself). -/
theorem cancel_during_backoff_returns_ctx_err
    (cancelWait : Nat → Option CtxError) (outcome : Nat → AttemptResult)
    (attempt r : Nat) (e : TEIError) (c : CtxError)
    (hclass : attemptClassified (outcome attempt) = some e)
    (hretry : e.isRetryable = true)
    (hcancel : cancelWait (attempt + 1) = some c) :
    execLoop cancelWait outcome attempt (r + 1) =
      ExecResult.fail (.ctxErr c) (attempt + 1) := by
  rw [execLoop]
  rcases houtcome : outcome attempt with f | m | ⟨s, em, b⟩
  · have hw : wrapNetworkError f = e := by
      rw [houtcome] at hclass
      simpa [attemptClassified] using hclass
    simp [hw, hretry, hcancel]
  · rw [houtcome] at hclass
    simp [attemptClassified] at hclass
  · rw [houtcome] at hclass
    by_cases h2 : 200 ≤ s ∧ s < 300
    · simp [attemptClassified, h2] at hclass
    · have hw : NewTEIErrorFromHTTP s em = e := by
        simpa [attemptClassified, h2] using hclass
      simp [h2, hw, hretry, hcancel]

/-- Witness for C4 (amended): concrete schedules — retryable connection
refusal on attempt 0, cancellation during the wait before attempt 1. -/
theorem cancel_during_backoff_returns_ctx_err_witness :
    execLoop cancelBeforeAttempt1 alwaysConnRefused 0 (2 + 1) =
      ExecResult.fail (.ctxErr .canceled) 1 :=
  cancel_during_backoff_returns_ctx_err cancelBeforeAttempt1 alwaysConnRefused
    0 2 ⟨"connection refused", .network, 0, ""⟩ .canceled
    (by decide) (by decide) (by decide)

end TEI

namespace TEI

/-- `entities.ValidationConfig` (validation.go lines 11-16). -/
structure ValidationConfig where
  maxInputLength : Nat
  maxBatchSize : Nat
  maxSentencesCount : Nat
  allowEmptyStrings : Bool
deriving DecidableEq, Repr

/-- `entities.DefaultValidationConfig` (validation.go lines 18-25): input
length 8192, batch size 32, sentences count 100, empty strings refused. -/
def DefaultValidationConfig : ValidationConfig :=
  ⟨8192, 32, 100, false⟩

/-- The primitive Go string operations the validator consumes, abstracted
over the text type `σ` (Go strings are byte sequences and may hold invalid
UTF-8, which Lean's `String` cannot): `isBlank t` is
`strings.TrimSpace(t) == ""`, `utf8Valid` is `utf8.ValidString`, `runeCount`
is `utf8.RuneCountInString`, and `promptNamePat` is a match of the regular
expression `^[a-zA-Z0-9_-]+$`. -/
structure StrOps (σ : Type) where
  isBlank : σ → Bool
  utf8Valid : σ → Bool
  runeCount : σ → Nat
  promptNamePat : σ → Bool

/-- `(*Validator).ValidateText` (validation.go lines 38-56): blank check
(skipped when `AllowEmptyStrings`), UTF-8 validity, then rune count against
`MaxInputLength`. -/
def ValidateText {σ : Type} (ops : StrOps σ) (cfg : ValidationConfig)
    (text : σ) (fieldName : String) : Option ValidationError :=
  if !cfg.allowEmptyStrings && ops.isBlank text then
    some ⟨fieldName, "cannot be empty"⟩
  else if !ops.utf8Valid text then
    some ⟨fieldName, "must be valid UTF-8"⟩
  else if cfg.maxInputLength < ops.runeCount text then
    some ⟨fieldName, "exceeds maximum length"⟩
  else none

/-- The `for i, text := range texts` loop of `(*Validator).ValidateTexts`
(validation.go lines 73-77): collect one entry per offending element, the
per-element field name being `fieldName + "[" + string(rune(i)) + "]"`. -/
def collectTextErrors {σ : Type} (ops : StrOps σ) (cfg : ValidationConfig)
    (fieldName : String) : List σ → Nat → List ValidationError
  | [], _ => []
  | t :: rest, i =>
    match ValidateText ops cfg t
        (fieldName ++ "[" ++ String.singleton (Char.ofNat i) ++ "]") with
    | some e => e :: collectTextErrors ops cfg fieldName rest (i + 1)
    | none => collectTextErrors ops cfg fieldName rest (i + 1)

/-- `(*Validator).ValidateTexts` (validation.go lines 58-83): an empty list
fails immediately citing the given field; otherwise a batch-size entry is
recorded when the list exceeds `MaxBatchSize`, per-element errors are
appended, and the aggregate is returned exactly when non-empty. -/
def ValidateTexts {σ : Type} (ops : StrOps σ) (cfg : ValidationConfig)
    (texts : List σ) (fieldName : String) : Option (List ValidationError) :=
  if texts.length = 0 then
    some [⟨fieldName, "cannot be empty"⟩]
  else
    let batchErrs :=
      if cfg.maxBatchSize < texts.length then
        [(⟨fieldName, "exceeds maximum batch size"⟩ : ValidationError)]
      else []
    let errs := batchErrs ++ collectTextErrors ops cfg fieldName texts 0
    if errs.isEmpty then none else some errs

/-- `(*Validator).ValidatePromptName` (validation.go lines 85-101): a no-op
on an absent prompt name; otherwise blank and allowed-character checks. -/
def ValidatePromptName {σ : Type} (ops : StrOps σ) (promptName : Option σ) :
    Option ValidationError :=
  match promptName with
  | none => none
  | some p =>
    if ops.isBlank p then some ⟨"prompt_name", "cannot be empty"⟩
    else if !ops.promptNamePat p then
      some ⟨"prompt_name",
        "must contain only letters, numbers, underscores, and hyphens"⟩
    else none

/-- `(*Validator).ValidateTruncationDirection` (validation.go lines
117-129): a no-op on the empty value, `Left` and `Right` accepted, anything
else rejected.  Go's typed-string `TruncationDirection` is modelled as the
underlying string. -/
def ValidateTruncationDirection (direction : String) : Option ValidationError :=
  if direction = "" then none
  else if direction = "Left" ∨ direction = "Right" then none
  else some ⟨"truncation_direction", "must be 'Left' or 'Right'"⟩

end TEI

namespace TEI

/-- `entities.EmbedRequest` (part of the entities file): `Inputs.Data` is the
ordered list of input texts; `Normalize`, `PromptName` and `Truncate` are
pointer fields whose absence is `none`; the typed-string truncation direction
is `""` when unset. -/
structure EmbedRequest (σ : Type) where
  inputs : List σ
  normalize : Option Bool
  promptName : Option σ
  truncate : Option Bool
  truncationDirection : String
deriving DecidableEq, Repr

/-- `(*EmbedRequest).SetDefaults`: normalize defaults to true, truncate to
false, truncation direction to `Right`. -/
def embedSetDefaults {σ : Type} (r : EmbedRequest σ) : EmbedRequest σ :=
  ⟨r.inputs, some (r.normalize.getD true), r.promptName,
    some (r.truncate.getD false),
    if r.truncationDirection = "" then "Right" else r.truncationDirection⟩

/-- `entities.SimilarityInput`: one source sentence plus the ordered
candidate sentences. -/
structure SimilarityInput (σ : Type) where
  sourceSentence : σ
  sentences : List σ
deriving DecidableEq, Repr

/-- `entities.SimilarityParameters`. -/
structure SimilarityParameters (σ : Type) where
  promptName : Option σ
  truncate : Option Bool
  truncationDirection : String
deriving DecidableEq, Repr

/-- `entities.SimilarityRequest`. -/
structure SimilarityRequest (σ : Type) where
  inputs : SimilarityInput σ
  parameters : Option (SimilarityParameters σ)
deriving DecidableEq, Repr

/-- `(*SimilarityParameters).SetDefaults`: truncate defaults to false and
the truncation direction to `Right`. -/
def similarityParamsSetDefaults {σ : Type} (p : SimilarityParameters σ) :
    SimilarityParameters σ :=
  ⟨p.promptName, some (p.truncate.getD false),
    if p.truncationDirection = "" then "Right" else p.truncationDirection⟩

/-- `(*SimilarityRequest).SetDefaults`: materialise absent parameters as the
zero value, then apply the parameter defaults. -/
def similaritySetDefaults {σ : Type} (r : SimilarityRequest σ) :
    SimilarityRequest σ :=
  ⟨r.inputs,
    some (similarityParamsSetDefaults (r.parameters.getD ⟨none, none, ""⟩))⟩

/-- `(*Validator).ValidateEmbedRequest` (validation.go lines 131-145): texts,
prompt name, truncation direction, first failure wins. -/
def ValidateEmbedRequest {σ : Type} (ops : StrOps σ) (cfg : ValidationConfig)
    (req : EmbedRequest σ) : Option ValFailure :=
  match ValidateTexts ops cfg req.inputs "inputs" with
  | some errs => some (.multi errs)
  | none =>
    match ValidatePromptName ops req.promptName with
    | some e => some (.single e)
    | none =>
      match ValidateTruncationDirection req.truncationDirection with
      | some e => some (.single e)
      | none => none

/-- `(*Validator).ValidateSimilarityRequest` (validation.go lines 147-175):
source sentence text check, similarity-specific sentence-count cap
(`MaxSentencesCount`), then the general `ValidateTexts` over the candidate
sentences (which enforces `MaxBatchSize`), then the optional parameters'
prompt name and truncation direction; first failure wins. -/
def ValidateSimilarityRequest {σ : Type} (ops : StrOps σ)
    (cfg : ValidationConfig) (req : SimilarityRequest σ) : Option ValFailure :=
  match ValidateText ops cfg req.inputs.sourceSentence "source_sentence" with
  | some e => some (.single e)
  | none =>
    if cfg.maxSentencesCount < req.inputs.sentences.length then
      some (.single ⟨"sentences", "exceeds maximum sentences count"⟩)
    else
      match ValidateTexts ops cfg req.inputs.sentences "sentences" with
      | some errs => some (.multi errs)
      | none =>
        match req.parameters with
        | none => none
        | some ps =>
          match ValidatePromptName ops ps.promptName with
          | some e => some (.single e)
          | none =>
            match ValidateTruncationDirection ps.truncationDirection with
            | some e => some (.single e)
            | none => none

/-- `entities.EmbedResponse`: one vector per input; the numeric component
type is abstracted as `α` (Go `float32`). -/
structure EmbedResponse (α : Type) where
  embeddings : List (List α)
deriving DecidableEq, Repr

/-- `entities.SimilarityResponse`: one score per candidate sentence. -/
structure SimilarityResponse (α : Type) where
  similarities : List α
deriving DecidableEq, Repr

/-- `(*embedding.Service).Embed` (the embedding service): set defaults,
validate, post to `/embed` (the injected transport's result is the `post`
argument), on a transport error wrap it as
`fmt.Errorf("embed request failed: %w", err)`, decode the body
(`json.Unmarshal`, abstracted as the `decode` argument) and report a decode
failure as a backend-kind classified error. -/
def embedOp {σ α : Type} (ops : StrOps σ) (req : EmbedRequest σ)
    (post : Except GoError (List Nat))
    (decode : List Nat → Option (EmbedResponse α)) :
    Except GoError (EmbedResponse α) :=
  let req2 := embedSetDefaults req
  match ValidateEmbedRequest ops DefaultValidationConfig req2 with
  | some vf => .error (.valFailure vf)
  | none =>
    match post with
    | .error err => .error (.opWrap "embed request failed" err)
    | .ok body =>
      match decode body with
      | none => .error (.tei (NewTEIError "failed to parse response" .backend))
      | some resp => .ok resp

/-- `(*similarity.Service).CalculateSimilarity` (service.go lines 29-68): set
defaults, validate, post to `/similarity`, wrap a transport error as
`fmt.Errorf("similarity request failed: %w", err)`, decode, report a decode
failure as a backend-kind classified error, then the shape check: a
similarity count different from the candidate-sentence count is a
backend-kind classified error. -/
def similarityOp {σ α : Type} (ops : StrOps σ) (req : SimilarityRequest σ)
    (post : Except GoError (List Nat))
    (decode : List Nat → Option (SimilarityResponse α)) :
    Except GoError (SimilarityResponse α) :=
  let req2 := similaritySetDefaults req
  match ValidateSimilarityRequest ops DefaultValidationConfig req2 with
  | some vf => .error (.valFailure vf)
  | none =>
    match post with
    | .error err => .error (.opWrap "similarity request failed" err)
    | .ok body =>
      match decode body with
      | none => .error (.tei (NewTEIError "failed to parse response" .backend))
      | some resp =>
        if resp.similarities.length ≠ req2.inputs.sentences.length then
          .error (.tei (NewTEIError "response similarity count mismatch" .backend))
        else .ok resp

/-- A concrete instantiation of the abstract text type, used to evaluate the
validator in witnesses: a text is its list of characters, `isBlank` holds
when every character is whitespace (so trimming leaves the empty string),
`utf8Valid` is constantly true (character lists are always valid Unicode),
and `runeCount` is the character count. -/
def charListOps : StrOps (List Char) :=
  ⟨fun s => s.all Char.isWhitespace,
    fun _ => true,
    fun s => s.length,
    fun s => !s.isEmpty && s.all (fun c => c.isAlphanum || c == '_' || c == '-')⟩

end TEI

namespace TEI

theorem validateText_none {σ : Type} (ops : StrOps σ) (cfg : ValidationConfig)
    (t : σ) (f : String) (h1 : ops.isBlank t = false)
    (h2 : ops.utf8Valid t = true) (h3 : ops.runeCount t ≤ cfg.maxInputLength) :
    ValidateText ops cfg t f = none := by
  simp [ValidateText, h1, h2, Nat.not_lt.mpr h3]

theorem collectTextErrors_nil {σ : Type} (ops : StrOps σ)
    (cfg : ValidationConfig) (field : String) :
    ∀ (texts : List σ) (i : Nat),
      (∀ t ∈ texts, ops.isBlank t = false ∧ ops.utf8Valid t = true ∧
        ops.runeCount t ≤ cfg.maxInputLength) →
      collectTextErrors ops cfg field texts i = [] := by
  intro texts
  induction texts with
  | nil => intro i _; rfl
  | cons t rest ih =>
    intro i h
    have ht := h t (by simp)
    simp only [collectTextErrors]
    rw [validateText_none ops cfg t _ ht.1 ht.2.1 ht.2.2]
    exact ih (i + 1) (fun x hx => h x (by simp [hx]))

/-- C9: under the default configuration, a list of 1 to 32 input texts each
of which is non-blank after trimming, valid UTF-8, and at most 8192
characters long passes `ValidateTexts` with no error, while the empty list
fails with a validation error citing the `inputs` field. -/
theorem validateTexts_valid_inputs_pass (σ : Type) (ops : StrOps σ)
    (texts : List σ) (hlen : 1 ≤ texts.length) (hbatch : texts.length ≤ 32)
    (hitems : ∀ t ∈ texts, ops.isBlank t = false ∧ ops.utf8Valid t = true ∧
      ops.runeCount t ≤ 8192) :
    ValidateTexts ops DefaultValidationConfig texts "inputs" = none ∧
    ValidateTexts ops DefaultValidationConfig ([] : List σ) "inputs" =
      some [⟨"inputs", "cannot be empty"⟩] := by
  constructor
  · have hc := collectTextErrors_nil ops DefaultValidationConfig "inputs" texts 0
      hitems
    unfold ValidateTexts
    rw [if_neg (by omega : ¬texts.length = 0)]
    have hb : ¬(DefaultValidationConfig.maxBatchSize < texts.length) := by
      show ¬(32 < texts.length)
      omega
    simp [hb, hc]
  · rfl

/-- Witness for C9: the one-element list `["hi"]` passes and `[]` fails. -/
theorem validateTexts_valid_inputs_pass_witness :
    ValidateTexts charListOps DefaultValidationConfig [['h', 'i']] "inputs" =
      none ∧
    ValidateTexts charListOps DefaultValidationConfig ([] : List (List Char))
      "inputs" = some [⟨"inputs", "cannot be empty"⟩] :=
  validateTexts_valid_inputs_pass (List Char) charListOps [['h', 'i']]
    (by decide) (by decide) (by decide)

theorem validateTexts_batch_exceeded {σ : Type} (ops : StrOps σ)
    (cfg : ValidationConfig) (texts : List σ) (field : String)
    (h : cfg.maxBatchSize < texts.length) :
    ValidateTexts ops cfg texts field ≠ none := by
  unfold ValidateTexts
  rw [if_neg (by omega)]
  simp [h]

/-- C10: under the default configuration, every similarity request whose
candidate-sentence list has more than 32 elements fails validation — the
candidate list is subject to `ValidateTexts`' general batch-size cap of 32
in addition to the similarity-specific 100-sentence cap, so the effective
maximum number of candidate sentences is 32, not 100. -/
theorem similarity_sentences_capped_at_32 {σ : Type} (ops : StrOps σ)
    (req : SimilarityRequest σ) (h : 32 < req.inputs.sentences.length) :
    ValidateSimilarityRequest ops DefaultValidationConfig req ≠ none := by
  unfold ValidateSimilarityRequest
  cases hsrc : ValidateText ops DefaultValidationConfig
      req.inputs.sourceSentence "source_sentence" with
  | some e => simp
  | none =>
    by_cases h100 : DefaultValidationConfig.maxSentencesCount <
        req.inputs.sentences.length
    · simp [h100]
    · cases hvt : ValidateTexts ops DefaultValidationConfig
          req.inputs.sentences "sentences" with
      | some errs => simp [h100, hvt]
      | none =>
        exact absurd hvt
          (validateTexts_batch_exceeded ops DefaultValidationConfig
            req.inputs.sentences "sentences" h)

/-- Witness for C10: a request with 33 one-character candidate sentences
(within the 100-sentence similarity cap) is rejected. -/
theorem similarity_sentences_capped_at_32_witness :
    ValidateSimilarityRequest charListOps DefaultValidationConfig
      ⟨⟨['a'], List.replicate 33 ['s']⟩, none⟩ ≠ none :=
  similarity_sentences_capped_at_32 charListOps
    ⟨⟨['a'], List.replicate 33 ['s']⟩, none⟩ (by decide)

end TEI

namespace TEI

/-- `entities.EmbedAllRequest`: like `EmbedRequest` but without the
normalize flag. -/
structure EmbedAllRequest (σ : Type) where
  inputs : List σ
  promptName : Option σ
  truncate : Option Bool
  truncationDirection : String
deriving DecidableEq, Repr

/-- `(*EmbedAllRequest).SetDefaults`: truncate defaults to false and the
truncation direction to `Right`. -/
def embedAllSetDefaults {σ : Type} (r : EmbedAllRequest σ) : EmbedAllRequest σ :=
  ⟨r.inputs, r.promptName, some (r.truncate.getD false),
    if r.truncationDirection = "" then "Right" else r.truncationDirection⟩

/-- `entities.EmbedSparseRequest`: the same fields as `EmbedAllRequest`. -/
structure EmbedSparseRequest (σ : Type) where
  inputs : List σ
  promptName : Option σ
  truncate : Option Bool
  truncationDirection : String
deriving DecidableEq, Repr

/-- `(*EmbedSparseRequest).SetDefaults`: truncate defaults to false and the
truncation direction to `Right`. -/
def embedSparseSetDefaults {σ : Type} (r : EmbedSparseRequest σ) :
    EmbedSparseRequest σ :=
  ⟨r.inputs, r.promptName, some (r.truncate.getD false),
    if r.truncationDirection = "" then "Right" else r.truncationDirection⟩

/-- The `for idx, text := range i.Data` loop of `(*Input).Validate` (the
entities file): one entry per blank element, field `input`, message
`fmt.Sprintf("input[%d] cannot be empty", idx)`. -/
def collectBlankInputErrors {σ : Type} (ops : StrOps σ) :
    List σ → Nat → List ValidationError
  | [], _ => []
  | t :: rest, i =>
    if ops.isBlank t then
      ⟨"input", "input[" ++ toString i ++ "] cannot be empty"⟩ ::
        collectBlankInputErrors ops rest (i + 1)
    else collectBlankInputErrors ops rest (i + 1)

/-- `(*Input).Validate` (the entities file): an empty list fails citing the
`input` field; otherwise one aggregated entry per blank element; the
aggregate is returned exactly when non-empty.  `(*EmbedAllRequest).Validate`
and `(*EmbedSparseRequest).Validate` delegate to this check on `Inputs` —
unlike Embed, they do not go through the Validator's
`ValidateEmbedRequest`. -/
def inputValidate {σ : Type} (ops : StrOps σ) (data : List σ) :
    Option (List ValidationError) :=
  if data.length = 0 then some [⟨"input", "input cannot be empty"⟩]
  else
    let errs := collectBlankInputErrors ops data 0
    if errs.isEmpty then none else some errs

/-- `entities.EmbedAllResponse`: one vector per token per input. -/
structure EmbedAllResponse (α : Type) where
  embeddings : List (List (List α))
deriving DecidableEq, Repr

/-- `entities.SparseValue`: an (index, value) pair. -/
structure SparseValue (α : Type) where
  index : Int
  value : α
deriving DecidableEq, Repr

/-- `entities.EmbedSparseResponse`: an ordered sequence of (index, value)
pairs per input. -/
structure EmbedSparseResponse (α : Type) where
  embeddings : List (List (SparseValue α))
deriving DecidableEq, Repr

/-- `(*embedding.Service).EmbedAll`: set defaults, validate via
`req.Validate()` (i.e. `Input.Validate` on the inputs), post to
`/embed_all`, wrap a transport error as
`fmt.Errorf("embed_all request failed: %w", err)`, and report a decode
failure as a backend-kind classified error. -/
def embedAllOp {σ α : Type} (ops : StrOps σ) (req : EmbedAllRequest σ)
    (post : Except GoError (List Nat))
    (decode : List Nat → Option (EmbedAllResponse α)) :
    Except GoError (EmbedAllResponse α) :=
  let req2 := embedAllSetDefaults req
  match inputValidate ops req2.inputs with
  | some errs => .error (.valFailure (.multi errs))
  | none =>
    match post with
    | .error err => .error (.opWrap "embed_all request failed" err)
    | .ok body =>
      match decode body with
      | none => .error (.tei (NewTEIError "failed to parse response" .backend))
      | some resp => .ok resp

/-- `(*embedding.Service).EmbedSparse`: set defaults, validate via
`req.Validate()`, post to `/embed_sparse`, wrap a transport error as
`fmt.Errorf("embed_sparse request failed: %w", err)`, and report a decode
failure as a backend-kind classified error. -/
def embedSparseOp {σ α : Type} (ops : StrOps σ) (req : EmbedSparseRequest σ)
    (post : Except GoError (List Nat))
    (decode : List Nat → Option (EmbedSparseResponse α)) :
    Except GoError (EmbedSparseResponse α) :=
  let req2 := embedSparseSetDefaults req
  match inputValidate ops req2.inputs with
  | some errs => .error (.valFailure (.multi errs))
  | none =>
    match post with
    | .error err => .error (.opWrap "embed_sparse request failed" err)
    | .ok body =>
      match decode body with
      | none => .error (.tei (NewTEIError "failed to parse response" .backend))
      | some resp => .ok resp

/-- A valid similarity request used to exercise the error path: source
sentence "a", one candidate sentence "b", no optional parameters. -/
def c7Request : SimilarityRequest (List Char) :=
  ⟨⟨['a'], [['b']]⟩, none⟩

/-- A classified error as the transport would surface it: overloaded, HTTP
429, with a correlation id. -/
def c7TransportErr : GoError :=
  .tei ⟨"busy", .overloaded, 429, "req-1"⟩

/-- A decoder whose value is irrelevant on the error path. -/
def c7Decode : List Nat → Option (SimilarityResponse Int) :=
  fun _ => none

/-- C7 counterexample: when the transport fails with a classified error, the
similarity operation does not return that error value unchanged — it wraps
it as `fmt.Errorf("similarity request failed: %w", err)`, so the caller
receives a different error value with an altered message. -/
theorem domain_op_wraps_transport_error_counterexample :
    similarityOp charListOps c7Request (.error c7TransportErr) c7Decode =
      .error (.opWrap "similarity request failed" c7TransportErr) ∧
    GoError.opWrap "similarity request failed" c7TransportErr ≠
      c7TransportErr := by
  constructor
  · rfl
  · decide

/-- C7 (amended): when the transport returns a classified error, each of the
four domain operations — Embed, EmbedAll, EmbedSparse, CalculateSimilarity —
returns it wrapped exactly once with its fixed operation-context message
("embed request failed" / "embed_all request failed" /
"embed_sparse request failed" / "similarity request failed"), the classified
error itself carried unchanged (same kind, message, code and correlation id)
as the wrapped inner error; the only errors the operations construct
themselves are backend-kind decode and shape-check errors. -/
theorem domain_op_passes_transport_error_wrapped {σ α : Type} (ops : StrOps σ)
    (ereq : EmbedRequest σ) (areq : EmbedAllRequest σ)
    (spreq : EmbedSparseRequest σ) (sreq : SimilarityRequest σ)
    (err : GoError)
    (dec1 : List Nat → Option (EmbedResponse α))
    (dec2 : List Nat → Option (EmbedAllResponse α))
    (dec3 : List Nat → Option (EmbedSparseResponse α))
    (dec4 : List Nat → Option (SimilarityResponse α))
    (h1 : ValidateEmbedRequest ops DefaultValidationConfig
      (embedSetDefaults ereq) = none)
    (h2 : inputValidate ops (embedAllSetDefaults areq).inputs = none)
    (h3 : inputValidate ops (embedSparseSetDefaults spreq).inputs = none)
    (h4 : ValidateSimilarityRequest ops DefaultValidationConfig
      (similaritySetDefaults sreq) = none) :
    embedOp ops ereq (.error err) dec1 =
      .error (.opWrap "embed request failed" err) ∧
    embedAllOp ops areq (.error err) dec2 =
      .error (.opWrap "embed_all request failed" err) ∧
    embedSparseOp ops spreq (.error err) dec3 =
      .error (.opWrap "embed_sparse request failed" err) ∧
    similarityOp ops sreq (.error err) dec4 =
      .error (.opWrap "similarity request failed" err) := by
  refine ⟨?_, ?_, ?_, ?_⟩
  · simp only [embedOp]
    simp [h1]
  · simp only [embedAllOp]
    simp [h2]
  · simp only [embedSparseOp]
    simp [h3]
  · simp only [similarityOp]
    simp [h4]

/-- Witness for C7 (amended): valid embed, embed-all and embed-sparse
requests over `["hi"]` and the valid similarity request above, with an
overloaded-kind transport error. -/
theorem domain_op_passes_transport_error_wrapped_witness :
    embedOp charListOps (⟨[['h', 'i']], none, none, none, ""⟩ :
        EmbedRequest (List Char)) (.error c7TransportErr)
      (fun _ => (none : Option (EmbedResponse Int))) =
      .error (.opWrap "embed request failed" c7TransportErr) ∧
    embedAllOp charListOps (⟨[['h', 'i']], none, none, ""⟩ :
        EmbedAllRequest (List Char)) (.error c7TransportErr)
      (fun _ => (none : Option (EmbedAllResponse Int))) =
      .error (.opWrap "embed_all request failed" c7TransportErr) ∧
    embedSparseOp charListOps (⟨[['h', 'i']], none, none, ""⟩ :
        EmbedSparseRequest (List Char)) (.error c7TransportErr)
      (fun _ => (none : Option (EmbedSparseResponse Int))) =
      .error (.opWrap "embed_sparse request failed" c7TransportErr) ∧
    similarityOp charListOps c7Request (.error c7TransportErr)
      (fun _ => (none : Option (SimilarityResponse Int))) =
      .error (.opWrap "similarity request failed" c7TransportErr) :=
  domain_op_passes_transport_error_wrapped charListOps
    ⟨[['h', 'i']], none, none, none, ""⟩ ⟨[['h', 'i']], none, none, ""⟩
    ⟨[['h', 'i']], none, none, ""⟩ c7Request c7TransportErr
    (fun _ => none) (fun _ => none) (fun _ => none) (fun _ => none)
    (by decide) (by decide) (by decide) (by decide)

/-- A valid similarity request for the shape-check theorem's witness. -/
def c8Request : SimilarityRequest (List Char) :=
  ⟨⟨['a'], [['b']]⟩, none⟩

/-- A decoder returning two similarity scores — one more than the single
candidate sentence. -/
def c8Decode : List Nat → Option (SimilarityResponse Int) :=
  fun _ => some ⟨[1, 2]⟩

/-- C8: when a similarity request passes validation and the backend's
response decodes successfully but carries a similarity count different from
the candidate-sentence count, the operation fails with a backend-kind
classified error ("response similarity count mismatch") and returns no
response — the score list is neither truncated nor padded. -/
theorem similarity_shape_mismatch_fails {σ α : Type} (ops : StrOps σ)
    (sreq : SimilarityRequest σ) (body : List Nat)
    (dec : List Nat → Option (SimilarityResponse α))
    (resp : SimilarityResponse α)
    (hval : ValidateSimilarityRequest ops DefaultValidationConfig
      (similaritySetDefaults sreq) = none)
    (hdec : dec body = some resp)
    (hmismatch : resp.similarities.length ≠ sreq.inputs.sentences.length) :
    similarityOp ops sreq (.ok body) dec =
      .error (.tei (NewTEIError "response similarity count mismatch"
        .backend)) := by
  have hm2 : resp.similarities.length ≠
      (similaritySetDefaults sreq).inputs.sentences.length := hmismatch
  simp only [similarityOp]
  simp [hval, hdec, hm2]

/-- Witness for C8: one candidate sentence, two returned scores. -/
theorem similarity_shape_mismatch_fails_witness :
    similarityOp charListOps c8Request (.ok []) c8Decode =
      .error (.tei (NewTEIError "response similarity count mismatch"
        .backend)) :=
  similarity_shape_mismatch_fails charListOps c8Request [] c8Decode ⟨[1, 2]⟩
    (by decide) (by decide) (by decide)

end TEI
